import Mathlib

/-!
Shallow embedding of the MarketMind session state machine (`src/app.py`)
and its AI-service boundary (`src/ai_services.py`).

The Streamlit session dictionary becomes an explicit `SessionState` value;
each handler becomes a pure state-passing function.  The wall clock
(`datetime.datetime.now()` rendered through `strftime`) is passed in as an
explicit `Timestamp` of the three formatted strings the code stores.  The
network (`requests.post(...).json()` and its possible exceptions) is passed
in as a `GroqOutcome` environment value: the four constructors are exactly
the four ways the `try` block in `groq_generate` can end.
-/

/-- The three formatted components `app.py` derives from one
`datetime.datetime.now()` call: `strftime("%Y-%m-%d")`, `strftime("%Y-%m")`
and `strftime("%H:%M:%S")`. -/
structure Timestamp where
  date : String
  month : String
  time : String
deriving DecidableEq, Repr

/-- One entry of `st.session_state.tool_history`
(built in `save_tool_history`, `app.py` lines 77-86). -/
structure ToolRecord where
  feature : String
  input : String
  output : String
  date : String
  month : String
  time : String
deriving DecidableEq, Repr

/-- One element of a chat transcript: `{"role": ..., "content": ...}`. -/
structure ChatMessage where
  role : String
  content : String
deriving DecidableEq, Repr

/-- One entry of `st.session_state.chat_history`
(built in `save_chat_history`, `app.py` lines 88-97). -/
structure ChatRecord where
  messages : List ChatMessage
  date : String
  month : String
  time : String
deriving DecidableEq, Repr

/-- `st.session_state.selected_item` holds either a tool record or a chat
record (the two sidebar history loops store either kind). -/
abbrev HistoryItem := ToolRecord ⊕ ChatRecord

/-- The session dictionary initialised in the SESSION INIT block of
`app.py` (lines 46-54). -/
structure SessionState where
  page : String
  tool_history : List ToolRecord
  chat_history : List ChatRecord
  current_chat : List ChatMessage
  selected_item : Option HistoryItem
deriving DecidableEq, Repr

/-- `DEFAULT_PAGE = "Dashboard"` (`app.py` line 36). -/
def DEFAULT_PAGE : String := "Dashboard"

/-- `VALID_PAGES` (`app.py` lines 37-41). -/
def VALID_PAGES : List String :=
  ["Dashboard", "Campaign", "Sales", "Lead",
   "Summary", "Research", "Chat",
   "History", "ChatHistory"]

/-- The freshly initialised session: default page, empty histories, empty
transcript, no selection (`app.py` lines 46-54). -/
def initState : SessionState :=
  { page := DEFAULT_PAGE
    tool_history := []
    chat_history := []
    current_chat := []
    selected_item := none }

/-- `go(page, keep=False)` (`app.py` lines 124-129): if the target is a
valid page, set `st.session_state.page` and, when `keep` is false, clear
`selected_item`; otherwise do nothing.  The trailing `st.rerun()` is a UI
re-render trigger with no session-state effect, so it has no counterpart
here. -/
def go (page : String) (keep : Bool) (s : SessionState) : SessionState :=
  if page ∈ VALID_PAGES then
    let s1 : SessionState := { s with page := page }
    if keep then s1 else { s1 with selected_item := none }
  else s

/-- `save_tool_history(feature, user_input, output)`
(`app.py` lines 77-86): append one record with the current timestamp. -/
def save_tool_history (feature user_input output : String) (now : Timestamp)
    (s : SessionState) : SessionState :=
  { s with tool_history := s.tool_history ++
      [{ feature := feature, input := user_input, output := output,
         date := now.date, month := now.month, time := now.time }] }

/-- `save_chat_history()` (`app.py` lines 88-97): if `current_chat` is
non-empty (Python truthiness of the list), append one chat record holding a
copy of the whole transcript and reset `current_chat` to `[]`; on an empty
transcript the body is skipped entirely. -/
def save_chat_history (now : Timestamp) (s : SessionState) : SessionState :=
  if s.current_chat = [] then s
  else
    { s with
      chat_history := s.chat_history ++
        [{ messages := s.current_chat,
           date := now.date, month := now.month, time := now.time }]
      current_chat := [] }

/-- The monthly-activity computation of the Dashboard page
(`app.py` lines 184-188), generalised over the month string it compares
against (the code instantiates it with the current month): the tool records
whose stored `month` field equals the given month, followed by the chat
records whose stored `month` field equals it. -/
def monthly_usage (month : String) (tool_data : List ToolRecord)
    (chat_data : List ChatRecord) : List HistoryItem :=
  (tool_data.filter (fun item => item.month = month)).map Sum.inl ++
  (chat_data.filter (fun chat => chat.month = month)).map Sum.inr

/-- A sidebar history click (`app.py` lines 153-161): store the clicked
record into `selected_item`, then `go(target, keep=True)`. -/
def select_history_item (item : HistoryItem) (target : String)
    (s : SessionState) : SessionState :=
  go target true { s with selected_item := some item }

/-- The outcome of the guarded network interaction inside `groq_generate`
(`ai_services.py` lines 30-42): the parsed response has a `choices` entry
whose first message content extracts to a string, or it has an `error`
entry with a message, or it is some other payload (rendered by its textual
form), or the post / parse / extraction raised an exception with the given
message.  These are exactly the four exits of the `try` block. -/
inductive GroqOutcome where
  | choices (content : String)
  | apiError (message : String)
  | otherResp (rendered : String)
  | exn (message : String)
deriving DecidableEq, Repr

/-- `groq_generate(prompt)` (`ai_services.py` lines 13-42), as a function of
the network outcome for its prompt: every branch, including the
`except Exception` one, returns an ordinary string. -/
def groq_generate : GroqOutcome → String
  | GroqOutcome.choices content => content
  | GroqOutcome.apiError message => "Groq API Error: " ++ message
  | GroqOutcome.otherResp rendered => "Unexpected response: " ++ rendered
  | GroqOutcome.exn message => "Exception occurred: " ++ message

/-- `safe_groq(prompt)` (`app.py` lines 62-66): a `try/except` around
`groq_generate`.  `groq_generate` is total — every one of its branches
returns a string — so the `except` branch (which would return a
`"⚠️ Groq API Error:"` string) is unreachable and the wrapper reduces to
the call it guards. -/
def safe_groq (outcome : GroqOutcome) : String :=
  groq_generate outcome

/-- Whether `pat` occurs as a contiguous run inside `l`. -/
def hasSub (pat : List Char) : List Char → Bool
  | [] => pat.isEmpty
  | d :: ds => pat.isPrefixOf (d :: ds) || hasSub pat ds

/-- Python substring containment `pat in s`. -/
def strContains (s pat : String) : Bool :=
  hasSub pat.data s.data

/-- The prompt template of `hf_lead_score` (`ai_services.py` lines 50-62)
with the lead description interpolated. -/
def lead_prompt (description : String) : String :=
  "\n    Analyze this business lead and classify the buying intent.\n\n" ++
  "    Lead:\n    " ++ description ++ "\n\n" ++
  "    Classify as one of:\n    - High Intent\n    - Medium Intent\n" ++
  "    - Low Intent\n\n    Respond with only one label.\n    "

/-- The result dictionary of `hf_lead_score`. -/
structure LeadScore where
  score : Nat
  intent : String
deriving DecidableEq, Repr

/-- `hf_lead_score(description)` (`ai_services.py` lines 48-71): build the
prompt, obtain the completion text through `groq_generate`, then map it by
substring tests — `"High" in result`, else `"Medium" in result`, else the
Low fallback.  `env` is the network environment: which outcome the guarded
call produces for each prompt. -/
def hf_lead_score (env : String → GroqOutcome) (description : String) :
    LeadScore :=
  let result := groq_generate (env (lead_prompt description))
  if strContains result "High" then { score := 90, intent := "High Intent" }
  else if strContains result "Medium" then
    { score := 65, intent := "Medium Intent" }
  else { score := 30, intent := "Low Intent" }

/-- `safe_hf(description)` (`app.py` lines 68-72): a `try/except` around
`hf_lead_score`.  `hf_lead_score` is total, so the fallback branch (which
would return `{"score": 0, "intent": "Error: ..."}`) is unreachable and the
wrapper reduces to the call it guards. -/
def safe_hf (env : String → GroqOutcome) (description : String) : LeadScore :=
  hf_lead_score env description

/-- The guarded user-message append of the Chat page Send handler
(`app.py` lines 373-374): `if user_input:` — Python truthiness, i.e. the
string is non-empty — append `{"role": "user", "content": user_input}` to
`current_chat`. -/
def append_user_message (content : String) (s : SessionState) :
    SessionState :=
  if content = "" then s
  else { s with current_chat :=
          s.current_chat ++ [{ role := "user", content := content }] }

/-- The assistant-message append of the Chat page Send handler
(`app.py` line 377): unconditionally append
`{"role": "assistant", "content": response}` to `current_chat`. -/
def append_assistant_message (content : String) (s : SessionState) :
    SessionState :=
  { s with current_chat :=
      s.current_chat ++ [{ role := "assistant", content := content }] }

/-- The whole Chat page Send handler (`app.py` lines 372-378): when the
input is non-empty, append the user message, flatten the transcript-so-far
into a conversational context, obtain a completion through `safe_groq`, and
append it as the assistant message. -/
def chat_send (user_input : String) (env : String → GroqOutcome)
    (s : SessionState) : SessionState :=
  if user_input = "" then s
  else
    let s1 := append_user_message user_input s
    let context := String.intercalate "\n"
      (s1.current_chat.map (fun m => m.role ++ ": " ++ m.content))
    let response := safe_groq (env context)
    append_assistant_message response s1

/-- The prompt built by the Campaign page (`app.py` line 310). -/
def campaign_prompt (product audience : String) : String :=
  "Create marketing campaign for " ++ product ++ " targeting " ++ audience

/-- The Campaign page Generate handler (`app.py` lines 309-314): build the
prompt, obtain a result through `safe_groq`, and record the run in
`tool_history`. -/
def campaign_generate (product audience : String)
    (env : String → GroqOutcome) (now : Timestamp) (s : SessionState) :
    SessionState :=
  let prompt := campaign_prompt product audience
  let result := safe_groq (env prompt)
  save_tool_history "Campaign" prompt result now s

/-- One user-visible operation of the session state machine, used to state
session-wide invariants.  `nav` is a sidebar navigation button or a `go`
call, `select` a sidebar history click, `tool` a tool run recorded through
`save_tool_history`, `send` the Chat Send handler, `chatSave` the Chat
Save-Chat handler. -/
inductive Op where
  | nav (page : String) (keep : Bool)
  | select (item : HistoryItem) (target : String)
  | tool (feature user_input output : String) (now : Timestamp)
  | send (user_input : String) (env : String → GroqOutcome)
  | chatSave (now : Timestamp)

/-- The transition function of the session state machine. -/
def step : Op → SessionState → SessionState
  | Op.nav page keep, s => go page keep s
  | Op.select item target, s => select_history_item item target s
  | Op.tool feature user_input output now, s =>
      save_tool_history feature user_input output now s
  | Op.send user_input env, s => chat_send user_input env s
  | Op.chatSave now, s => save_chat_history now s

/-! ## Witness fixtures -/

/-- A concrete timestamp for concrete evaluations. -/
def wTs : Timestamp := { date := "2024-03-02", month := "2024-03", time := "10:15:00" }

/-- A concrete chat message. -/
def wMsg : ChatMessage := { role := "user", content := "hello" }

/-- A concrete tool record. -/
def wTool : ToolRecord :=
  { feature := "Campaign", input := "in", output := "out",
    date := "2024-03-02", month := "2024-03", time := "09:00:00" }

/-- A session on the chat page holding a one-message transcript. -/
def wChatState : SessionState :=
  { initState with page := "Chat", current_chat := [wMsg] }

/-! ## Helper lemmas -/

/-- `go` on a target outside `VALID_PAGES` is a complete no-op. -/
theorem go_invalid_noop (page : String) (keep : Bool) (s : SessionState)
    (h : page ∉ VALID_PAGES) : go page keep s = s := by
  unfold go
  rw [if_neg h]

/-- A whole sequence of `go` calls on invalid targets is a no-op. -/
theorem foldl_go_invalid :
    ∀ (l : List (String × Bool)) (s : SessionState),
      (∀ p ∈ l, p.1 ∉ VALID_PAGES) →
      l.foldl (fun t p => go p.1 p.2 t) s = s := by
  intro l
  induction l with
  | nil => intro s _; rfl
  | cons p ps ih =>
    intro s h
    rw [List.foldl_cons, go_invalid_noop p.1 p.2 s (h p (by simp))]
    exact ih s (fun q hq => h q (by simp [hq]))

/-! ## Claims -/

/-- C1: saving a non-empty transcript (`save_chat_history`) produces exactly
the state in which one new `ChatRecord` holding the full `current_chat` has
been appended to `chat_history` and `current_chat` is empty; every other
field is unchanged.  The post-state is given as a single total equation, so
the commit admits no intermediate state with only part of the transcript
moved. -/
theorem C1_save_chat_commits (s : SessionState) (now : Timestamp)
    (h : s.current_chat ≠ []) :
    save_chat_history now s =
      { s with
        chat_history := s.chat_history ++
          [{ messages := s.current_chat,
             date := now.date, month := now.month, time := now.time }]
        current_chat := [] } := by
  unfold save_chat_history
  rw [if_neg h]

/-- Witness for C1 on a concrete one-message transcript. -/
theorem C1_save_chat_commits_witness :
    save_chat_history wTs wChatState =
      { wChatState with
        chat_history := wChatState.chat_history ++
          [{ messages := wChatState.current_chat,
             date := wTs.date, month := wTs.month, time := wTs.time }]
        current_chat := [] } :=
  C1_save_chat_commits wChatState wTs (by decide)

/-- C2: a sequence of `go` calls whose targets all lie outside
`VALID_PAGES` leaves the whole session state — in particular `page` and
`selected_item` — unchanged (and, being a total function, raises nothing),
while a `go` to a valid target sets `page` to that target. -/
theorem C2_nav_targets (s : SessionState) (l : List (String × Bool))
    (hl : ∀ p ∈ l, p.1 ∉ VALID_PAGES) :
    l.foldl (fun t p => go p.1 p.2 t) s = s ∧
    ∀ target keep, target ∈ VALID_PAGES → (go target keep s).page = target := by
  refine ⟨foldl_go_invalid l s hl, ?_⟩
  intro target keep ht
  cases keep <;> simp [go, ht]

/-- Witness for C2: two invalid targets leave the fresh session untouched,
and a valid target is reached. -/
theorem C2_nav_targets_witness :
    ([("Settings", false), ("Nowhere", true)].foldl
        (fun t p => go p.1 p.2 t) initState = initState ∧
     ∀ target keep, target ∈ VALID_PAGES →
       (go target keep initState).page = target) :=
  C2_nav_targets initState [("Settings", false), ("Nowhere", true)] (by decide)

/-- C3: the intent classifier is determined by the completion text for its
prompt: text containing `"High"` yields `{score 90, High Intent}`, text
containing `"Medium"` but not `"High"` yields `{score 65, Medium Intent}`,
and text containing neither yields the Low fallback `{score 30, Low
Intent}`; being a total function of that text, unrecognized output can only
fall through to the Low branch, never fail. -/
theorem C3_intent_classifier (env : String → GroqOutcome)
    (description : String) :
    (strContains (groq_generate (env (lead_prompt description))) "High"
        = true →
      hf_lead_score env description = { score := 90, intent := "High Intent" }) ∧
    (strContains (groq_generate (env (lead_prompt description))) "High"
        = false →
      strContains (groq_generate (env (lead_prompt description))) "Medium"
        = true →
      hf_lead_score env description =
        { score := 65, intent := "Medium Intent" }) ∧
    (strContains (groq_generate (env (lead_prompt description))) "High"
        = false →
      strContains (groq_generate (env (lead_prompt description))) "Medium"
        = false →
      hf_lead_score env description =
        { score := 30, intent := "Low Intent" }) := by
  refine ⟨fun h1 => ?_, fun h1 h2 => ?_, fun h1 h2 => ?_⟩ <;>
    simp [hf_lead_score, h1]
  · simp [h2]
  · simp [h2]

/-- Witness for C3: one concrete completion text per branch. -/
theorem C3_intent_classifier_witness :
    hf_lead_score (fun _ => GroqOutcome.choices "High Intent") "a lead" =
      { score := 90, intent := "High Intent" } ∧
    hf_lead_score (fun _ => GroqOutcome.choices "Medium Intent") "a lead" =
      { score := 65, intent := "Medium Intent" } ∧
    hf_lead_score (fun _ => GroqOutcome.exn "timeout") "a lead" =
      { score := 30, intent := "Low Intent" } :=
  ⟨(C3_intent_classifier (fun _ => GroqOutcome.choices "High Intent")
      "a lead").1 (by decide),
   (C3_intent_classifier (fun _ => GroqOutcome.choices "Medium Intent")
      "a lead").2.1 (by decide) (by decide),
   (C3_intent_classifier (fun _ => GroqOutcome.exn "timeout")
      "a lead").2.2 (by decide) (by decide)⟩

/-- C4: `monthly_usage` holds exactly the tool and chat records whose
stored month component equals the given month — a record is in the result
iff it is in the corresponding history and its month matches. -/
theorem C4_monthly_usage (month : String) (tool_data : List ToolRecord)
    (chat_data : List ChatRecord) (r : HistoryItem) :
    r ∈ monthly_usage month tool_data chat_data ↔
      (match r with
       | Sum.inl t => t ∈ tool_data ∧ t.month = month
       | Sum.inr c => c ∈ chat_data ∧ c.month = month) := by
  cases r with
  | inl t => simp [monthly_usage, and_comm]
  | inr c => simp [monthly_usage, and_comm]

/-- C5: a sidebar history click stores the clicked item in `selected_item`
and navigates with keep-selection, so the item survives the jump to the
detail view; afterwards a `go` to a valid view with `keep = false` clears
`selected_item` while a `go` with `keep = true` preserves it. -/
theorem C5_select_history_item (item : HistoryItem) (target : String)
    (s : SessionState) (ht : target ∈ VALID_PAGES) :
    (select_history_item item target s).selected_item = some item ∧
    (select_history_item item target s).page = target ∧
    (∀ v ∈ VALID_PAGES,
      (go v false (select_history_item item target s)).selected_item
        = none) ∧
    (∀ v ∈ VALID_PAGES,
      (go v true (select_history_item item target s)).selected_item
        = some item) := by
  refine ⟨?_, ?_, fun v hv => ?_, fun v hv => ?_⟩
  · simp [select_history_item, go, ht]
  · simp [select_history_item, go, ht]
  · simp [select_history_item, go, ht, hv]
  · simp [select_history_item, go, ht, hv]

/-- Witness for C5 on a concrete tool record. -/
theorem C5_select_history_item_witness :
    (select_history_item (Sum.inl wTool) "History" initState).selected_item
      = some (Sum.inl wTool) ∧
    (select_history_item (Sum.inl wTool) "History" initState).page
      = "History" ∧
    (go "Dashboard" false
        (select_history_item (Sum.inl wTool) "History" initState)).selected_item
      = none ∧
    (go "History" true
        (select_history_item (Sum.inl wTool) "History" initState)).selected_item
      = some (Sum.inl wTool) := by
  have h := C5_select_history_item (Sum.inl wTool) "History" initState
    (by decide)
  exact ⟨h.1, h.2.1, h.2.2.1 "Dashboard" (by decide),
    h.2.2.2 "History" (by decide)⟩

/-- C6: saving an empty transcript is a complete no-op: the guard in
`save_chat_history` skips the body, so `chat_history`, `current_chat` and
every other field are unchanged and nothing fails. -/
theorem C6_empty_save_noop (now : Timestamp) (s : SessionState)
    (h : s.current_chat = []) : save_chat_history now s = s := by
  unfold save_chat_history
  rw [if_pos h]

/-- Witness for C6 on the fresh session. -/
theorem C6_empty_save_noop_witness :
    save_chat_history wTs initState = initState :=
  C6_empty_save_noop wTs initState rfl

/-- C7: every failing outcome of the completion boundary — a raised
exception, an API error payload, or an unexpected payload — comes back from
`safe_groq` as an ordinary, distinctly prefixed string rather than a
propagated fault, and a tool run feeding on it appends that very string to
`tool_history` through the normal recording path while leaving the rest of
the session (page, chat history, transcript) untouched and usable. -/
theorem C7_failure_to_string (e m r product audience : String)
    (env : String → GroqOutcome) (now : Timestamp) (s : SessionState) :
    safe_groq (GroqOutcome.exn e) = "Exception occurred: " ++ e ∧
    safe_groq (GroqOutcome.apiError m) = "Groq API Error: " ++ m ∧
    safe_groq (GroqOutcome.otherResp r) = "Unexpected response: " ++ r ∧
    (campaign_generate product audience env now s).tool_history =
      s.tool_history ++
        [{ feature := "Campaign", input := campaign_prompt product audience,
           output := safe_groq (env (campaign_prompt product audience)),
           date := now.date, month := now.month, time := now.time }] ∧
    (campaign_generate product audience env now s).page = s.page ∧
    (campaign_generate product audience env now s).chat_history
      = s.chat_history ∧
    (campaign_generate product audience env now s).current_chat
      = s.current_chat :=
  ⟨rfl, rfl, rfl, rfl, rfl, rfl, rfl⟩

/-- C8 counterexample: a whitespace-only message is NOT ignored — Python
truthiness only rejects the empty string, so `" "` passes the `if
user_input:` guard and is appended to the transcript. -/
theorem C8_blank_appended :
    initState.current_chat = [] ∧
    (append_user_message " " initState).current_chat =
      [{ role := "user", content := " " }] :=
  ⟨rfl, rfl⟩

/-- C8 (amended): appending a user message is a no-op exactly for the empty
string; any non-empty content — whitespace-only included — appends exactly
one `ChatMessage` with role `user` to `current_chat`, every other field
unchanged. -/
theorem C8_append_user_message (content : String) (s : SessionState) :
    (content = "" → append_user_message content s = s) ∧
    (content ≠ "" →
      append_user_message content s =
        { s with current_chat :=
            s.current_chat ++ [{ role := "user", content := content }] }) := by
  refine ⟨fun h => ?_, fun h => ?_⟩ <;> simp [append_user_message, h]

/-- Witness for C8: the empty string is dropped, `"hi"` is appended. -/
theorem C8_append_user_message_witness :
    append_user_message "" initState = initState ∧
    append_user_message "hi" initState =
      { initState with current_chat :=
          initState.current_chat ++ [{ role := "user", content := "hi" }] } :=
  ⟨(C8_append_user_message "" initState).1 rfl,
   (C8_append_user_message "hi" initState).2 (by decide)⟩

/-- C9: both histories are append-only — after any single operation of the
session state machine (navigation, history selection, tool recording, chat
send, chat save), the previous `tool_history` is a prefix of the new one
and likewise for `chat_history`; no record is deleted or edited. -/
theorem C9_histories_append_only (op : Op) (s : SessionState) :
    s.tool_history <+: (step op s).tool_history ∧
    s.chat_history <+: (step op s).chat_history := by
  cases op with
  | nav page keep =>
    by_cases hp : page ∈ VALID_PAGES <;> cases keep <;>
      simp [step, go, hp]
  | select item target =>
    by_cases hp : target ∈ VALID_PAGES <;>
      simp [step, select_history_item, go, hp]
  | tool feature user_input output now =>
    simp [step, save_tool_history, List.prefix_append]
  | send user_input env =>
    by_cases hu : user_input = "" <;>
      simp [step, chat_send, append_user_message,
        append_assistant_message, hu]
  | chatSave now =>
    by_cases hc : s.current_chat = [] <;>
      simp [step, save_chat_history, hc, List.prefix_append]

/-- C10: the lead-scoring pipeline is total and its score is always one of
90, 65 or 30 — since `groq_generate` absorbs every failing outcome into a
string, `hf_lead_score` always lands in one of its three branches, so the
`safe_hf` fallback that would report `{score 0, error text}` is unreachable
and the wrapper coincides with the guarded call. -/
theorem C10_lead_score_total (env : String → GroqOutcome)
    (description : String) :
    safe_hf env description = hf_lead_score env description ∧
    ((safe_hf env description).score = 90 ∨
     (safe_hf env description).score = 65 ∨
     (safe_hf env description).score = 30) := by
  refine ⟨rfl, ?_⟩
  unfold safe_hf hf_lead_score
  by_cases h1 : strContains (groq_generate (env (lead_prompt description)))
      "High" = true
  · simp [h1]
  · by_cases h2 : strContains (groq_generate (env (lead_prompt description)))
        "Medium" = true
    · simp [h1, h2]
    · simp [h1, h2]
